import Mathlib

/-!
Verification of the `pf-in-aml-pipeline` orchestration code.

This file shallowly embeds the two Python source files of the repository:

* `src/web_classification/pf-in-aml-pipeline/run_pipeline.py` — the pipeline
  builder: module constants, the module-level `pipeline_components` list,
  `create_dynamic_evaluation_pipeline` (whose inner decorated function is
  `evaluation_pipeline`), and `build_pipeline`.
* `src/web_classification/pf-in-aml-pipeline/src/postprocess.py` — the
  postprocess stage script: `parse_args` (argparse with `parse_known_args`)
  and `main` (here `postprocess_main`).

Stateful Python (the module-level list, the filesystem, stdout) is embedded
by explicit state passing; fallible operations return `Except`/`Option`.
External library behaviour (`azure.ai.ml` object construction, pandas
`read_json`) is modelled at the granularity the scripts rely on: component
loading records the descriptor path; `read_json(path, lines=True)` maps a
line-delimited JSON file to its list of record rows and fails on a missing
file, on malformed content, or on a `None` path.
-/

/-- Embeds the constant `AML_EXPERIMENT_NAME` of run_pipeline.py. -/
def AML_EXPERIMENT_NAME : String := "pf_in_pipeline_experiment"

/-- Embeds the constant `AML_PIPELINE_NAME` of run_pipeline.py. -/
def AML_PIPELINE_NAME : String := "my_pipeline"

/-- Embeds the datastore path-stem constant of run_pipeline.py (named
`AML_DATASTORE_PATH_…` there; renamed here for lexical reasons). -/
def AML_DATASTORE_PATH_STEM : String := "azureml://datastores/workspaceblobstore/paths/"

/-- Embeds the constant `AML_DATASTORE_PREPROCESS_FILE_NAME` of run_pipeline.py. -/
def AML_DATASTORE_PREPROCESS_FILE_NAME : String := "data.jsonl"

/-- Embeds the constant `AML_DATASTORE_PROMPTFLOW_FILE_NAME` of run_pipeline.py. -/
def AML_DATASTORE_PROMPTFLOW_FILE_NAME : String := "pf_output.jsonl"

/-- Embeds the constant `AML_DATASTORE_POSTPROCESS_FILE_NAME` of run_pipeline.py. -/
def AML_DATASTORE_POSTPROCESS_FILE_NAME : String := "postprocess.jsonl"

/-- An AML component descriptor, identified by the path it was loaded from.
The repository never inspects component internals, so the descriptor path is
the component's whole observable identity here. -/
structure Component where
  sourcePath : String
deriving DecidableEq, Repr

/-- Embeds `azure.ai.ml.load_component`: loading a component descriptor from a
YAML path. -/
def load_component (path : String) : Component := ⟨path⟩

/-- Embeds the `azure.ai.ml.constants.AssetTypes` constants used by the code. -/
inductive AssetTypes
  | URI_FILE
  | URI_FOLDER
deriving DecidableEq, Repr

/-- Embeds an `azure.ai.ml.Input` object as constructed in `evaluation_pipeline`
(a datastore path plus an asset type). -/
structure AmlInput where
  path : String
  type : AssetTypes
deriving DecidableEq, Repr

/-- Embeds an `azure.ai.ml.Output` object as constructed in
`evaluation_pipeline` (a datastore path, an asset type and a mode). -/
structure AmlOutput where
  path : String
  type : AssetTypes
  mode : String
deriving DecidableEq, Repr

/-- A value passed as a named argument to a pipeline component invocation:
an `Input` object, an integer literal, a string literal, or a reference to a
named output of an earlier stage (stage index into the pipeline's stage
list). -/
inductive ArgValue
  | input (i : AmlInput)
  | intVal (n : Int)
  | strVal (s : String)
  | outputOf (stage : Nat) (outName : String)
deriving DecidableEq, Repr

/-- One stage of a pipeline definition: the component invoked, its named
arguments in the order they are passed, and the output-path bindings assigned
to its outputs (`stage.outputs.<name> = Output(...)` in the source). -/
structure Stage where
  component : Component
  args : List (String × ArgValue)
  outputBindings : List (String × AmlOutput)
deriving DecidableEq, Repr

/-- The pipeline definition produced by invoking the decorated
`evaluation_pipeline` function: the `@pipeline(name=...)` decorator's name,
the `name` run parameter, and the ordered stage list. -/
structure PipelineDef where
  pipelineName : String
  runName : String
  stages : List Stage
deriving DecidableEq, Repr

/-- Embeds the body of the inner decorated function `evaluation_pipeline` of
run_pipeline.py.  `pipeline_components` is the module-level list as it stands
when the pipeline function is invoked; the body reads indices 0, 1 and 2 of
that list (`none` embeds Python's `IndexError` when the list is too short).
The stage wiring mirrors the source line by line: the preprocess stage takes
the `data.jsonl` datastore input and `max_records=2` and has its
`output_data_path` output bound to `preprocess_output.jsonl`; the experiment
stage takes the preprocess stage's `output_data_path` as `data` plus a
`url` literal and has its `flow_outputs` output bound to `pf_output.jsonl`;
the postprocess stage takes the experiment stage's `flow_outputs` as
`input_data_path` and has no output binding. -/
def evaluation_pipeline (pipeline_components : List Component)
    (pipeline_name : String) (name : String) : Option PipelineDef := do
  let pf_input_path : AmlInput :=
    { path := AML_DATASTORE_PATH_STEM ++ AML_DATASTORE_PREPROCESS_FILE_NAME
      type := AssetTypes.URI_FILE }
  let preprocess_output_path : AmlOutput :=
    { path := AML_DATASTORE_PATH_STEM ++ "preprocess_output.jsonl"
      type := AssetTypes.URI_FILE
      mode := "direct" }
  let c0 ← pipeline_components[0]?
  let preprocess : Stage :=
    { component := c0
      args := [("input_data_path", ArgValue.input pf_input_path),
               ("max_records", ArgValue.intVal 2)]
      outputBindings := [("output_data_path", preprocess_output_path)] }
  let pf_output : AmlOutput :=
    { path := AML_DATASTORE_PATH_STEM ++ AML_DATASTORE_PROMPTFLOW_FILE_NAME
      type := AssetTypes.URI_FILE
      mode := "direct" }
  let c1 ← pipeline_components[1]?
  let experiment : Stage :=
    { component := c1
      args := [("data", ArgValue.outputOf 0 "output_data_path"),
               ("url", ArgValue.strVal "$\x7bdata.url\x7d")]
      outputBindings := [("flow_outputs", pf_output)] }
  let c2 ← pipeline_components[2]?
  let postprocess : Stage :=
    { component := c2
      args := [("input_data_path", ArgValue.outputOf 1 "flow_outputs")]
      outputBindings := [] }
  return { pipelineName := pipeline_name
           runName := name
           stages := [preprocess, experiment, postprocess] }

/-- Embeds `create_dynamic_evaluation_pipeline` of run_pipeline.py: it returns
the decorated `evaluation_pipeline` closure, which reads the module-level
`pipeline_components` list at invocation time (so the list is an explicit
argument of the returned function). -/
def create_dynamic_evaluation_pipeline (pipeline_name : String) :
    List Component → String → Option PipelineDef :=
  fun pipeline_components name => evaluation_pipeline pipeline_components pipeline_name name

/-- The module-level mutable state of run_pipeline.py: the
`pipeline_components` list, plus the jobs submitted through the ML client
(recorded so that "builds but does not submit" is expressible). -/
structure GlobalState where
  pipeline_components : List Component
  submitted_jobs : List (PipelineDef × String)
deriving Repr

/-- The state at interpreter start: `pipeline_components = []`, nothing
submitted. -/
def initialState : GlobalState :=
  { pipeline_components := [], submitted_jobs := [] }

/-- Embeds `build_pipeline` of run_pipeline.py: loads the three component
descriptors from their fixed relative paths, appends them (one `append` at a
time, as in the source) to the module-level `pipeline_components` list, and
returns the pipeline-definition closure produced by
`create_dynamic_evaluation_pipeline`.  It performs no job submission. -/
def build_pipeline (pipeline_name : String) (st : GlobalState) :
    GlobalState × (List Component → String → Option PipelineDef) :=
  let preprocess_component := load_component "components/preprocess.yaml"
  let evaluation_promptflow_component := load_component "../flows/experiment/flow.dag.yaml"
  let postprocess_component := load_component "components/postprocess.yaml"
  let cs1 := st.pipeline_components ++ [preprocess_component]
  let cs2 := cs1 ++ [evaluation_promptflow_component]
  let cs3 := cs2 ++ [postprocess_component]
  let pipeline_definition := create_dynamic_evaluation_pipeline pipeline_name
  ({ st with pipeline_components := cs3 }, pipeline_definition)

/-- The pipeline definition obtained by calling `build_pipeline` on the fresh
interpreter state and invoking the returned closure (against the post-build
component list, as `__main__` does) with run-name `name`. -/
def built_pipeline (pipeline_name name : String) : Option PipelineDef :=
  let r := build_pipeline pipeline_name initialState
  r.2 r.1.pipeline_components name

/-- The three components `build_pipeline` appends on every call, in order. -/
def threeComponents : List Component :=
  [load_component "components/preprocess.yaml",
   load_component "../flows/experiment/flow.dag.yaml",
   load_component "components/postprocess.yaml"]

/-- The global state after `n` successive calls of `build_pipeline` (the
`k`-th call using pipeline name `names k`), starting from the fresh
interpreter state. -/
def build_calls (names : Nat → String) : Nat → GlobalState
  | 0 => initialState
  | n + 1 => (build_pipeline (names n) (build_calls names n)).1

/-- A scalar JSON value occurring in a record of a line-delimited JSON file
(the scripts never inspect values, so scalars suffice to populate rows). -/
inductive JsonVal
  | null
  | boolVal (b : Bool)
  | numVal (n : Int)
  | strVal (s : String)
deriving DecidableEq, Repr

/-- One record (one JSON line) of a line-delimited JSON file: its named
fields. -/
abbrev Row : Type := List (String × JsonVal)

/-- The content of a file on disk, at the granularity pandas' line-delimited
JSON loader observes it: either a valid line-delimited JSON file — one JSON
record per line, given by its list of rows — or malformed content that the
loader rejects. -/
inductive FileData
  | ldjson (rows : List Row)
  | malformed
deriving DecidableEq, Repr

/-- A filesystem: a partial map from paths to file contents (`none` = no file
at that path). -/
abbrev FileSystem : Type := String → Option FileData

/-- Embeds a pandas `DataFrame` at the granularity postprocess.py uses it:
the tabular structure is its list of rows. -/
structure DataFrame where
  rows : List Row
deriving DecidableEq, Repr

/-- The exceptions pandas `read_json` raises on the inputs postprocess.py can
feed it: a `None` path, a missing file, or a file that is not valid
line-delimited JSON. -/
inductive PdError
  | invalidPathNone
  | fileNotFound (path : String)
  | valueError (path : String)
deriving DecidableEq, Repr

/-- Models the external call `pandas.read_json(path, lines=True)` as
postprocess.py uses it: with a `None` path it raises; with a path naming no
file it raises the loader's file-not-found error; on a valid line-delimited
JSON file it returns the DataFrame whose rows are the file's JSON lines; on
malformed content it raises a parse error. -/
def pd_read_json (fs : FileSystem) (path : Option String) : Except PdError DataFrame :=
  match path with
  | none => Except.error PdError.invalidPathNone
  | some p =>
    match fs p with
    | none => Except.error (PdError.fileNotFound p)
    | some (FileData.ldjson rows) => Except.ok { rows := rows }
    | some FileData.malformed => Except.error (PdError.valueError p)

/-- Embeds the `argparse.Namespace` returned by `parse_args` of
postprocess.py: the single declared option, absent ⇒ `None`. -/
structure ArgsNamespace where
  input_data_path : Option String
deriving DecidableEq, Repr

/-- Whether `pre` is an initial segment of `s`, computed on the character
lists (Python slices strings by code point, and this form reduces inside the
kernel, unlike `String.startsWith`). -/
def strStartsWith (s pre : String) : Bool :=
  List.isPrefixOf pre.data s.data

/-- The string `s` with its first `n` characters removed, computed on the
character lists (Python's `s[n:]`). -/
def strDropChars (s : String) (n : Nat) : String :=
  String.mk (s.data.drop n)

/-- Approximates argparse's negative-number matcher: a token of the form
`-digits[.digits]` is a value, not an option. -/
def looksLikeNegativeNumber (s : String) : Bool :=
  strStartsWith s "-" && decide (1 < s.data.length)
    && (s.data.drop 1).all (fun c => c.isDigit || c = '.')

/-- A token argparse treats as an option string rather than a value: it starts
with `-`, is not the bare `-`, and does not look like a negative number. -/
def isOptionLike (s : String) : Bool :=
  strStartsWith s "-" && !(s = "-" : Bool) && !looksLikeNegativeNumber s

/-- Embeds the scan `parse_known_args` performs for a parser declaring only
`--input_data_path` (type `str`, optional) with `allow_abbrev=False`:
`--input_data_path v` and `--input_data_path=v` set the option (last
occurrence wins); a flag with no following value token, or followed by an
option-like token, is a usage error (argparse exits); a bare `--` ends option
parsing, the remainder becoming extras; every other token is collected into
the extras list. -/
def scan_known_args : List String → Option String → List String →
    Except String (ArgsNamespace × List String)
  | [], acc, extras => Except.ok ({ input_data_path := acc }, extras.reverse)
  | a :: rest, acc, extras =>
    if a = "--input_data_path" then
      match rest with
      | [] => Except.error "argument --input_data_path: expected one argument"
      | v :: rest2 =>
        if isOptionLike v then
          Except.error "argument --input_data_path: expected one argument"
        else
          scan_known_args rest2 (some v) extras
    else if strStartsWith a "--input_data_path=" then
      scan_known_args rest (some (strDropChars a "--input_data_path=".data.length)) extras
    else if a = "--" then
      Except.ok ({ input_data_path := acc }, extras.reverse ++ rest)
    else
      scan_known_args rest acc (a :: extras)

/-- Embeds `parser.parse_known_args()` of postprocess.py on an argument
vector: the parsed namespace together with the unrecognized extras. -/
def parse_known_args (argv : List String) : Except String (ArgsNamespace × List String) :=
  scan_known_args argv none []

/-- Embeds `parse_args` of postprocess.py: `args, _ = parser.parse_known_args()`
— the unrecognized extras are discarded and only the namespace is returned.
`Except.error` embeds argparse's usage-error exit. -/
def parse_args (argv : List String) : Except String ArgsNamespace :=
  (parse_known_args argv).map (fun r => r.1)

/-- The ways the postprocess script can terminate abnormally: an argparse
usage error, or an uncaught pandas exception propagating out of `main`. -/
inductive ScriptError
  | usage (msg : String)
  | pandas (e : PdError)
deriving DecidableEq, Repr

/-- The world the postprocess script runs against: the filesystem and the
sequence of tabular structures printed to standard output so far. -/
structure World where
  fs : FileSystem
  stdout : List DataFrame

/-- Embeds `main` of postprocess.py: parse the arguments, call
`pd.read_json(input_data_path, lines=True)`, print the resulting DataFrame,
and return.  No exception is caught: an argparse usage error or a pandas
error propagates out unchanged (as the `Except.error` result), and the world
is then left untouched. -/
def postprocess_main (w : World) (argv : List String) : Except ScriptError Unit × World :=
  match parse_args argv with
  | Except.error msg => (Except.error (ScriptError.usage msg), w)
  | Except.ok args =>
    match pd_read_json w.fs args.input_data_path with
    | Except.error e => (Except.error (ScriptError.pandas e), w)
    | Except.ok input_data_df =>
      (Except.ok (), { w with stdout := w.stdout ++ [input_data_df] })

/-- One-step evaluation of `evaluation_pipeline` on a component list with at
least three elements: the pipeline definition it yields, spelled out. -/
lemma evaluation_pipeline_cons (c0 c1 c2 : Component) (rest : List Component)
    (pn nm : String) :
    evaluation_pipeline (c0 :: c1 :: c2 :: rest) pn nm = some
      { pipelineName := pn
        runName := nm
        stages :=
          [{ component := c0
             args := [("input_data_path", ArgValue.input
                        { path := AML_DATASTORE_PATH_STEM ++ AML_DATASTORE_PREPROCESS_FILE_NAME
                          type := AssetTypes.URI_FILE }),
                      ("max_records", ArgValue.intVal 2)]
             outputBindings := [("output_data_path",
                { path := AML_DATASTORE_PATH_STEM ++ "preprocess_output.jsonl"
                  type := AssetTypes.URI_FILE
                  mode := "direct" })] },
           { component := c1
             args := [("data", ArgValue.outputOf 0 "output_data_path"),
                      ("url", ArgValue.strVal "$\x7bdata.url\x7d")]
             outputBindings := [("flow_outputs",
                { path := AML_DATASTORE_PATH_STEM ++ AML_DATASTORE_PROMPTFLOW_FILE_NAME
                  type := AssetTypes.URI_FILE
                  mode := "direct" })] },
           { component := c2
             args := [("input_data_path", ArgValue.outputOf 1 "flow_outputs")]
             outputBindings := [] }] } := by
  simp [evaluation_pipeline]

/-- `build_pipeline` appends exactly `threeComponents` to the component
list. -/
lemma build_pipeline_components (pn : String) (st : GlobalState) :
    (build_pipeline pn st).1.pipeline_components =
      st.pipeline_components ++ threeComponents := by
  simp [build_pipeline, threeComponents]

/-- Appending three elements to any list yields a list with at least three
elements, exposed as a triple cons. -/
lemma exists_head3 (l : List Component) (a b c : Component) :
    ∃ c0 c1 c2 rest, l ++ [a, b, c] = c0 :: c1 :: c2 :: rest := by
  match l with
  | [] => exact ⟨a, b, c, [], rfl⟩
  | [x] => exact ⟨x, a, b, [c], rfl⟩
  | [x, y] => exact ⟨x, y, a, [b, c], rfl⟩
  | x :: y :: z :: t => exact ⟨x, y, z, t ++ [a, b, c], by simp⟩

/-- Unfolding `built_pipeline`: the single build starting from the fresh
state invokes `evaluation_pipeline` on exactly the three freshly loaded
components. -/
lemma built_pipeline_unfold (pn nm : String) :
    built_pipeline pn nm =
      evaluation_pipeline
        (load_component "components/preprocess.yaml" ::
         load_component "../flows/experiment/flow.dag.yaml" ::
         load_component "components/postprocess.yaml" :: []) pn nm := rfl

/-- C1: The pipeline builder produces a pipeline definition referencing
exactly three stages — the preprocess component, the prompt-flow evaluation
component, and the postprocess component — in that declared order. -/
theorem c1_three_stages_declared_order (pipeline_name name : String) :
    ∃ pd : PipelineDef,
      built_pipeline pipeline_name name = some pd ∧
      pd.stages.length = 3 ∧
      pd.stages.map Stage.component =
        [load_component "components/preprocess.yaml",
         load_component "../flows/experiment/flow.dag.yaml",
         load_component "components/postprocess.yaml"] := by
  rw [built_pipeline_unfold, evaluation_pipeline_cons]
  exact ⟨_, rfl, rfl, rfl⟩

/-- C2: In the pipeline definition returned by `build_pipeline`, the stages
are wired positionally: the preprocess stage's output (`output_data_path`,
its sole output binding) is passed as the evaluation stage's `data` input,
and the evaluation stage's `flow_outputs` output (its sole output binding)
is passed as the postprocess stage's `input_data_path` input. -/
theorem c2_positional_wiring (pipeline_name name : String) :
    ∃ pd preprocess experiment postprocess,
      built_pipeline pipeline_name name = some pd ∧
      pd.stages = [preprocess, experiment, postprocess] ∧
      preprocess.outputBindings.map Prod.fst = ["output_data_path"] ∧
      List.lookup "data" experiment.args = some (ArgValue.outputOf 0 "output_data_path") ∧
      experiment.outputBindings.map Prod.fst = ["flow_outputs"] ∧
      postprocess.args = [("input_data_path", ArgValue.outputOf 1 "flow_outputs")] := by
  rw [built_pipeline_unfold, evaluation_pipeline_cons]
  refine ⟨_, _, _, _, rfl, rfl, rfl, ?_, rfl, rfl⟩
  simp [List.lookup]

/-- C3 counterexample: in the concrete pipeline definition the builder
constructs (pipeline name `"my_pipeline"`, run name `"run"`), the per-stage
output paths are `preprocess_output.jsonl` for the preprocess stage and
`pf_output.jsonl` for the evaluation stage, while the postprocess stage
(index 2) binds no output path at all — in particular not
`postprocess.jsonl`, whose full datastore path is computed in the last
conjunct and appears in no stage. -/
theorem c3_counterexample :
    Option.map (fun pd => pd.stages.map fun s => s.outputBindings.map fun b => b.2.path)
        (built_pipeline "my_pipeline" "run") =
      some [["azureml://datastores/workspaceblobstore/paths/preprocess_output.jsonl"],
            ["azureml://datastores/workspaceblobstore/paths/pf_output.jsonl"],
            []] ∧
    Option.map (fun pd => (pd.stages.map fun s => s.outputBindings.map fun b => b.2.path).getD 2 ["sentinel"])
        (built_pipeline "my_pipeline" "run") = some [] ∧
    AML_DATASTORE_PATH_STEM ++ AML_DATASTORE_POSTPROCESS_FILE_NAME =
      "azureml://datastores/workspaceblobstore/paths/postprocess.jsonl" := by
  refine ⟨?_, ?_, rfl⟩ <;>
    rw [built_pipeline_unfold, evaluation_pipeline_cons] <;> rfl

/-- C3 (amended): the pipeline definition exchanges line-delimited JSON at
fixed workspaceblobstore datastore paths: `data.jsonl` is the preprocess
stage's input, `preprocess_output.jsonl` its output, `pf_output.jsonl` the
evaluation stage's output; the `postprocess.jsonl` constant is defined but
never wired — the postprocess stage has no output binding. -/
theorem c3_amended_fixed_datastore_paths (pipeline_name name : String) :
    ∃ pd preprocess experiment postprocess,
      built_pipeline pipeline_name name = some pd ∧
      pd.stages = [preprocess, experiment, postprocess] ∧
      List.lookup "input_data_path" preprocess.args =
        some (ArgValue.input
          { path := AML_DATASTORE_PATH_STEM ++ AML_DATASTORE_PREPROCESS_FILE_NAME
            type := AssetTypes.URI_FILE }) ∧
      List.lookup "output_data_path" preprocess.outputBindings =
        some { path := AML_DATASTORE_PATH_STEM ++ "preprocess_output.jsonl"
               type := AssetTypes.URI_FILE
               mode := "direct" } ∧
      List.lookup "flow_outputs" experiment.outputBindings =
        some { path := AML_DATASTORE_PATH_STEM ++ AML_DATASTORE_PROMPTFLOW_FILE_NAME
               type := AssetTypes.URI_FILE
               mode := "direct" } ∧
      postprocess.outputBindings = [] ∧
      AML_DATASTORE_POSTPROCESS_FILE_NAME = "postprocess.jsonl" := by
  rw [built_pipeline_unfold, evaluation_pipeline_cons]
  refine ⟨_, _, _, _, rfl, rfl, ?_, ?_, ?_, rfl, rfl⟩ <;> simp [List.lookup]

/-- C7: For every pipeline name string (and any prior module state),
`build_pipeline` appends exactly the three component descriptors loaded from
the fixed relative paths to the module-level component list, submits no job,
and returns the callable pipeline-definition closure parameterized by a name
string (the closure produced by `create_dynamic_evaluation_pipeline`). -/
theorem c7_build_pipeline_loads_three_no_submit (pipeline_name : String) (st : GlobalState) :
    (build_pipeline pipeline_name st).1.pipeline_components =
      st.pipeline_components ++
        [load_component "components/preprocess.yaml",
         load_component "../flows/experiment/flow.dag.yaml",
         load_component "components/postprocess.yaml"] ∧
    (build_pipeline pipeline_name st).1.submitted_jobs = st.submitted_jobs ∧
    (build_pipeline pipeline_name st).2 = create_dynamic_evaluation_pipeline pipeline_name ∧
    ∀ cs name, (build_pipeline pipeline_name st).2 cs name =
      evaluation_pipeline cs pipeline_name name := by
  refine ⟨?_, rfl, rfl, fun cs name => rfl⟩
  simp [build_pipeline]

/-- C8: In every pipeline definition the builder constructs — from any prior
module state — the preprocess stage (stage 0) is invoked with
`max_records = 2`. -/
theorem c8_preprocess_max_records_two (pipeline_name name : String) (st : GlobalState) :
    ∃ pd s,
      (build_pipeline pipeline_name st).2
        (build_pipeline pipeline_name st).1.pipeline_components name = some pd ∧
      pd.stages.get? 0 = some s ∧
      List.lookup "max_records" s.args = some (ArgValue.intVal 2) := by
  obtain ⟨c0, c1, c2, rest, hsplit⟩ := exists_head3 st.pipeline_components
    (load_component "components/preprocess.yaml")
    (load_component "../flows/experiment/flow.dag.yaml")
    (load_component "components/postprocess.yaml")
  have hcomp : (build_pipeline pipeline_name st).1.pipeline_components =
      c0 :: c1 :: c2 :: rest := by
    rw [build_pipeline_components]
    exact hsplit
  rw [hcomp]
  have happ : (build_pipeline pipeline_name st).2 (c0 :: c1 :: c2 :: rest) name =
      evaluation_pipeline (c0 :: c1 :: c2 :: rest) pipeline_name name := rfl
  rw [happ, evaluation_pipeline_cons]
  refine ⟨_, _, rfl, rfl, ?_⟩
  simp [List.lookup]

/-- C6: The postprocess script writes nothing: for every world and argument
vector, the filesystem after `main` is the filesystem before, and the only
possible effect is printing one tabular structure to standard output. -/
theorem c6_no_output_artifact (w : World) (argv : List String) :
    (postprocess_main w argv).2.fs = w.fs ∧
    ((postprocess_main w argv).2.stdout = w.stdout ∨
      ∃ df, (postprocess_main w argv).2.stdout = w.stdout ++ [df]) := by
  cases hp : parse_args argv with
  | error msg => simp [postprocess_main, hp]
  | ok args =>
    cases hr : pd_read_json w.fs args.input_data_path with
    | error e => simp [postprocess_main, hp, hr]
    | ok df =>
      refine ⟨?_, Or.inr ⟨df, ?_⟩⟩ <;> simp [postprocess_main, hp, hr]

/-- C4: For every valid line-delimited JSON file whose path is passed via
`--input_data_path`, the postprocess script exits successfully and prints to
standard output the loaded tabular structure, whose row count equals the
number of JSON lines in the input file. -/
theorem c4_valid_ldjson_prints_row_count (fs : FileSystem) (out : List DataFrame)
    (argv : List String) (p : String) (rows : List Row)
    (hargs : parse_args argv = Except.ok { input_data_path := some p })
    (hfile : fs p = some (FileData.ldjson rows)) :
    (postprocess_main { fs := fs, stdout := out } argv).1 = Except.ok () ∧
    ∃ df, (postprocess_main { fs := fs, stdout := out } argv).2.stdout = out ++ [df] ∧
      df.rows.length = rows.length := by
  refine ⟨?_, { rows := rows }, ?_, rfl⟩ <;>
    simp [postprocess_main, hargs, pd_read_json, hfile]

/-- The two-line sample input file used by the concrete witnesses. -/
def sampleRows : List Row :=
  [[("category", JsonVal.strVal "App")], [("category", JsonVal.strVal "Blog")]]

/-- A filesystem holding exactly one valid line-delimited JSON file, at
`input.jsonl`. -/
def sampleFs : FileSystem := fun p =>
  if p = "input.jsonl" then some (FileData.ldjson sampleRows) else none

/-- Witness for C4 at a concrete two-line file. -/
theorem c4_valid_ldjson_prints_row_count_witness :
    parse_args ["--input_data_path", "input.jsonl"] =
      Except.ok { input_data_path := some "input.jsonl" } ∧
    sampleFs "input.jsonl" = some (FileData.ldjson sampleRows) ∧
    ((postprocess_main { fs := sampleFs, stdout := [] }
        ["--input_data_path", "input.jsonl"]).1 = Except.ok () ∧
     ∃ df, (postprocess_main { fs := sampleFs, stdout := [] }
        ["--input_data_path", "input.jsonl"]).2.stdout = [] ++ [df] ∧
       df.rows.length = sampleRows.length) :=
  ⟨rfl, rfl,
   c4_valid_ldjson_prints_row_count sampleFs [] ["--input_data_path", "input.jsonl"]
     "input.jsonl" sampleRows rfl rfl⟩

/-- C5: Given a path naming no file as `--input_data_path`, the postprocess
script fails — the loader's file-not-found exception propagates out of
`main` untranslated (it surfaces as `pandas (fileNotFound p)`, exactly the
loader's error) — and the world is left unchanged. -/
theorem c5_missing_file_raises (fs : FileSystem) (out : List DataFrame)
    (argv : List String) (p : String)
    (hargs : parse_args argv = Except.ok { input_data_path := some p })
    (hmissing : fs p = none) :
    postprocess_main { fs := fs, stdout := out } argv =
      (Except.error (ScriptError.pandas (PdError.fileNotFound p)),
       { fs := fs, stdout := out }) := by
  simp [postprocess_main, hargs, pd_read_json, hmissing]

/-- A filesystem with no files at all. -/
def emptyFs : FileSystem := fun _ => none

/-- Witness for C5 at a concrete missing path. -/
theorem c5_missing_file_raises_witness :
    parse_args ["--input_data_path", "missing.jsonl"] =
      Except.ok { input_data_path := some "missing.jsonl" } ∧
    emptyFs "missing.jsonl" = none ∧
    postprocess_main { fs := emptyFs, stdout := [] } ["--input_data_path", "missing.jsonl"] =
      (Except.error (ScriptError.pandas (PdError.fileNotFound "missing.jsonl")),
       { fs := emptyFs, stdout := [] }) :=
  ⟨rfl, rfl,
   c5_missing_file_raises emptyFs [] ["--input_data_path", "missing.jsonl"]
     "missing.jsonl" rfl rfl⟩

/-- One-step unfolding of `scan_known_args` on a non-empty argument vector. -/
lemma scan_known_args_cons (a : String) (rest : List String) (acc : Option String)
    (extras : List String) :
    scan_known_args (a :: rest) acc extras =
      (if a = "--input_data_path" then
        match rest with
        | [] => Except.error "argument --input_data_path: expected one argument"
        | v :: rest2 =>
          if isOptionLike v then
            Except.error "argument --input_data_path: expected one argument"
          else
            scan_known_args rest2 (some v) extras
      else if strStartsWith a "--input_data_path=" then
        scan_known_args rest (some (strDropChars a "--input_data_path=".data.length)) extras
      else if a = "--" then
        Except.ok ({ input_data_path := acc }, extras.reverse ++ rest)
      else
        scan_known_args rest acc (a :: extras)) := by
  rw [scan_known_args.eq_def]

/-- Whether a token sets the `--input_data_path` option (either argparse
form). -/
def mentions_flag (a : String) : Bool :=
  a == "--input_data_path" || strStartsWith a "--input_data_path="

/-- On an argument vector that never sets the option, the argparse scan
succeeds with the accumulator unchanged: no usage error, every token ends up
in the extras. -/
lemma scan_known_args_no_flag (argv : List String) :
    ∀ (acc : Option String) (extras : List String),
      (∀ a ∈ argv, mentions_flag a = false) →
      ∃ ex, scan_known_args argv acc extras = Except.ok ({ input_data_path := acc }, ex) := by
  induction argv with
  | nil => exact fun _ extras _ => ⟨extras.reverse, rfl⟩
  | cons a rest ih =>
    intro acc extras h
    have ha : mentions_flag a = false := h a (List.mem_cons_self a rest)
    simp only [mentions_flag, Bool.or_eq_false_iff, beq_eq_false_iff_ne, ne_eq] at ha
    obtain ⟨h1, h2⟩ := ha
    rw [scan_known_args_cons, if_neg h1, h2]
    by_cases hd : a = "--"
    · subst hd
      exact ⟨extras.reverse ++ rest, by simp⟩
    · simp only [Bool.false_eq_true, if_false, if_neg hd]
      exact ih acc (a :: extras) (fun b hb => h b (List.mem_cons_of_mem a hb))

/-- C10: If the `--input_data_path` flag is omitted (no token sets it, in
either argparse form), `parse_args` returns a namespace whose
`input_data_path` is `None` instead of reporting a usage error — any
unrecognized tokens are silently discarded by `parse_args` — and the failure
occurs only later, when the loader is called with the `None` path. -/
theorem c10_omitted_flag_fails_only_in_loader (argv : List String)
    (fs : FileSystem) (out : List DataFrame)
    (h : ∀ a ∈ argv, mentions_flag a = false) :
    parse_args argv = Except.ok { input_data_path := none } ∧
    postprocess_main { fs := fs, stdout := out } argv =
      (Except.error (ScriptError.pandas PdError.invalidPathNone),
       { fs := fs, stdout := out }) := by
  obtain ⟨ex, hex⟩ := scan_known_args_no_flag argv none [] h
  have hp : parse_args argv = Except.ok { input_data_path := none } := by
    unfold parse_args parse_known_args
    rw [hex]
    rfl
  exact ⟨hp, by simp [postprocess_main, hp, pd_read_json]⟩

/-- Witness for C10: an argument vector of unrecognized tokens only. -/
theorem c10_omitted_flag_fails_only_in_loader_witness :
    mentions_flag "--foo" = false ∧ mentions_flag "bar" = false ∧
    (parse_args ["--foo", "bar"] = Except.ok { input_data_path := none } ∧
     postprocess_main { fs := emptyFs, stdout := [] } ["--foo", "bar"] =
       (Except.error (ScriptError.pandas PdError.invalidPathNone),
        { fs := emptyFs, stdout := [] })) :=
  ⟨rfl, rfl,
   c10_omitted_flag_fails_only_in_loader ["--foo", "bar"] emptyFs []
     (by intro a ha; fin_cases ha <;> rfl)⟩

/-- Each successive `build_pipeline` call appends the same three components. -/
lemma build_calls_components (names : Nat → String) (n : Nat) :
    (build_calls names (n + 1)).pipeline_components =
      (build_calls names n).pipeline_components ++ threeComponents :=
  build_pipeline_components (names n) (build_calls names n)

/-- After `n` builds the module-level component list has length `3 * n`. -/
lemma build_calls_length (names : Nat → String) (n : Nat) :
    (build_calls names n).pipeline_components.length = 3 * n := by
  induction n with
  | zero => rfl
  | succ m ih =>
    have h3 : threeComponents.length = 3 := rfl
    rw [build_calls_components, List.length_append, ih, h3]
    omega

/-- After at least one build, the component list starts with the three
components the first call appended. -/
lemma build_calls_head (names : Nat → String) (n : Nat) :
    ∃ rest, (build_calls names (n + 1)).pipeline_components = threeComponents ++ rest := by
  induction n with
  | zero => exact ⟨[], by rw [build_calls_components]; rfl⟩
  | succ m ih =>
    obtain ⟨rest, hrest⟩ := ih
    exact ⟨rest ++ threeComponents,
      by rw [build_calls_components, hrest, List.append_assoc]⟩

/-- C9: `build_pipeline` is not idempotent: after `n` calls the module-level
component list has length `3 * n`, yet the pipeline closure always reads
indices 0, 1 and 2 — the list's first three entries are exactly the first
call's components, and the pipeline definition produced after `n` calls is
the one produced after the first call. -/
theorem c9_build_pipeline_not_idempotent (names : Nat → String) (pn nm : String)
    (n : Nat) (hn : 0 < n) :
    (build_calls names n).pipeline_components.length = 3 * n ∧
    (build_calls names n).pipeline_components.take 3 =
      (build_calls names 1).pipeline_components ∧
    evaluation_pipeline (build_calls names n).pipeline_components pn nm =
      evaluation_pipeline (build_calls names 1).pipeline_components pn nm := by
  obtain ⟨m, rfl⟩ : ∃ m, n = m + 1 := ⟨n - 1, (Nat.succ_pred_eq_of_pos hn).symm⟩
  obtain ⟨rest, hrest⟩ := build_calls_head names m
  have h1 : (build_calls names 1).pipeline_components = threeComponents := by
    rw [build_calls_components]
    rfl
  refine ⟨build_calls_length names (m + 1), ?_, ?_⟩
  · rw [hrest, h1]
    rfl
  · rw [hrest, h1]
    have e1 : threeComponents ++ rest =
        load_component "components/preprocess.yaml" ::
        load_component "../flows/experiment/flow.dag.yaml" ::
        load_component "components/postprocess.yaml" :: rest := rfl
    have e2 : threeComponents =
        load_component "components/preprocess.yaml" ::
        load_component "../flows/experiment/flow.dag.yaml" ::
        load_component "components/postprocess.yaml" :: [] := rfl
    rw [e1, e2, evaluation_pipeline_cons, evaluation_pipeline_cons]

/-- Witness for C9 at `n = 2` concrete calls. -/
theorem c9_build_pipeline_not_idempotent_witness :
    0 < 2 ∧
    ((build_calls (fun _ => "my_pipeline") 2).pipeline_components.length = 3 * 2 ∧
     (build_calls (fun _ => "my_pipeline") 2).pipeline_components.take 3 =
       (build_calls (fun _ => "my_pipeline") 1).pipeline_components ∧
     evaluation_pipeline (build_calls (fun _ => "my_pipeline") 2).pipeline_components
         "my_pipeline" "run" =
       evaluation_pipeline (build_calls (fun _ => "my_pipeline") 1).pipeline_components
         "my_pipeline" "run") :=
  ⟨Nat.zero_lt_succ 1,
   c9_build_pipeline_not_idempotent (fun _ => "my_pipeline") "my_pipeline" "run" 2
     (Nat.zero_lt_succ 1)⟩
